import Mathlib

/-
Verification of the 4mica-core-avs task worker against its specification.

The development shallowly embeds the Go task worker variants found in the
repository:
  * the cached-method worker (part_002, lines 395-543): `validateTask` and
    `handleTask` below;
  * the worker of part_004: `validateTaskV4`;
  * the remote JSON-RPC forwarding worker (part_003): `remoteValidateTask`
    and `remoteHandleTask`.
Byte strings are lists of naturals, each element one octet.  SHA-256 and
Keccak-256 are implemented executably so that the selector and result bytes
are fully concrete.
-/

namespace CoreAVS

/-- Byte strings: lists of naturals, each element denoting one octet. -/
abbrev Bytes := List Nat

/-- Truncation to a 32-bit word. -/
def w32 (n : Nat) : Nat := n % 4294967296

/-- Truncation to a 64-bit word. -/
def w64 (n : Nat) : Nat := n % 18446744073709551616

/-- Right rotation of a 32-bit word. -/
def rotr32 (x k : Nat) : Nat := w32 ((x >>> k) ||| (x <<< (32 - k)))

/-- Left rotation of a 64-bit word. -/
def rotl64 (x k : Nat) : Nat := w64 ((x <<< k) ||| (x >>> (64 - k)))

/- ### SHA-256 (FIPS 180-4), executable over byte lists -/

/-- The 64 SHA-256 round constants, written in decimal. -/
def sha256K : List Nat :=
  [1116352408, 1899447441, 3049323471, 3921009573, 961987163,
   1508970993, 2453635748, 2870763221, 3624381080, 310598401,
   607225278, 1426881987, 1925078388, 2162078206, 2614888103,
   3248222580, 3835390401, 4022224774, 264347078, 604807628,
   770255983, 1249150122, 1555081692, 1996064986, 2554220882,
   2821834349, 2952996808, 3210313671, 3336571891, 3584528711,
   113926993, 338241895, 666307205, 773529912, 1294757372,
   1396182291, 1695183700, 1986661051, 2177026350, 2456956037,
   2730485921, 2820302411, 3259730800, 3345764771, 3516065817,
   3600352804, 4094571909, 275423344, 430227734, 506948616,
   659060556, 883997877, 958139571, 1322822218, 1537002063,
   1747873779, 1955562222, 2024104815, 2227730452, 2361852424,
   2428436474, 2756734187, 3204031479, 3329325298]

/-- The eight SHA-256 initial hash words, written in decimal. -/
def sha256H0 : List Nat :=
  [1779033703, 3144134277, 1013904242, 2773480762,
   1359893119, 2600822924, 528734635, 1541459225]

def bigSigma0 (x : Nat) : Nat := rotr32 x 2 ^^^ rotr32 x 13 ^^^ rotr32 x 22

def bigSigma1 (x : Nat) : Nat := rotr32 x 6 ^^^ rotr32 x 11 ^^^ rotr32 x 25

def smallSigma0 (x : Nat) : Nat := rotr32 x 7 ^^^ rotr32 x 18 ^^^ (x >>> 3)

def smallSigma1 (x : Nat) : Nat := rotr32 x 17 ^^^ rotr32 x 19 ^^^ (x >>> 10)

/-- Group bytes into 32-bit big-endian words. -/
def beWords32 : Bytes → List Nat
  | a :: b :: c :: d :: rest => (a * 16777216 + b * 65536 + c * 256 + d) :: beWords32 rest
  | _ => []

/-- Big-endian bytes of a 32-bit word. -/
def beBytesOfWord32 (n : Nat) : Bytes :=
  [n / 16777216 % 256, n / 65536 % 256, n / 256 % 256, n % 256]

/-- Big-endian bytes of a 64-bit length field. -/
def beBytes64 (n : Nat) : Bytes :=
  [n / 2 ^ 56 % 256, n / 2 ^ 48 % 256, n / 2 ^ 40 % 256, n / 2 ^ 32 % 256,
   n / 2 ^ 24 % 256, n / 2 ^ 16 % 256, n / 2 ^ 8 % 256, n % 256]

/-- SHA-256 message padding to a multiple of 64 bytes. -/
def sha256Pad (msg : Bytes) : Bytes :=
  msg ++ 128 :: List.replicate ((64 - (msg.length + 9) % 64) % 64) 0 ++ beBytes64 (8 * msg.length)

/-- One step of the message-schedule extension. -/
def sha256ExtendStep (w : List Nat) : List Nat :=
  let n := w.length
  w ++ [w32 (smallSigma1 (w.getD (n - 2) 0) + w.getD (n - 7) 0 +
             smallSigma0 (w.getD (n - 15) 0) + w.getD (n - 16) 0)]

/-- Iterated message-schedule extension (48 steps extend 16 words to 64). -/
def sha256Extend : Nat → List Nat → List Nat
  | 0, w => w
  | k + 1, w => sha256Extend k (sha256ExtendStep w)

/-- One compression round; the state is the eight working words. -/
def sha256Round (kw : Nat) : List Nat → List Nat
  | [a, b, c, d, e, f, g, h] =>
    let ch := (e &&& f) ^^^ ((4294967295 ^^^ e) &&& g)
    let maj := (a &&& b) ^^^ (a &&& c) ^^^ (b &&& c)
    let t1 := w32 (h + bigSigma1 e + ch + kw)
    let t2 := w32 (bigSigma0 a + maj)
    [w32 (t1 + t2), a, b, c, w32 (d + t1), e, f, g]
  | st => st

def sha256Compress (st : List Nat) (kws : List Nat) : List Nat :=
  kws.foldl (fun s kw => sha256Round kw s) st

/-- Process one 64-byte block. -/
def sha256Block (hs : List Nat) (block : Bytes) : List Nat :=
  let ws := sha256Extend 48 (beWords32 block)
  let kws := (List.zip sha256K ws).map (fun p => w32 (p.1 + p.2))
  let st := sha256Compress hs kws
  (List.zip hs st).map (fun p => w32 (p.1 + p.2))

/-- Process the given number of 64-byte blocks. -/
def sha256Blocks : Nat → List Nat → Bytes → List Nat
  | 0, hs, _ => hs
  | k + 1, hs, msg => sha256Blocks k (sha256Block hs (msg.take 64)) (msg.drop 64)

/-- SHA-256 digest (32 bytes) of a byte string. -/
def sha256 (msg : Bytes) : Bytes :=
  let padded := sha256Pad msg
  ((sha256Blocks (padded.length / 64) sha256H0 padded).map beBytesOfWord32).flatten

/- ### Keccak-256 (legacy 0x01 padding, as used for Ethereum selectors) -/

/-- The 24 Keccak round constants, written in decimal. -/
def keccakRC : List Nat :=
  [1, 32898, 9223372036854808714,
   9223372039002292224, 32907, 2147483649,
   9223372039002292353, 9223372036854808585, 138,
   136, 2147516425, 2147483658,
   2147516555, 9223372036854775947, 9223372036854808713,
   9223372036854808579, 9223372036854808578, 9223372036854775936,
   32778, 9223372039002259466, 9223372039002292353,
   9223372036854808704, 2147483649, 9223372039002292232]

/-- Rotation offsets of the first 13 lanes, indexed by `x + 5 * y`. -/
def keccakRotLow : List Nat := [0, 1, 62, 28, 27, 36, 44, 6, 55, 20, 3, 10, 43]

/-- Rotation offsets of the remaining 12 lanes. -/
def keccakRotHigh : List Nat := [25, 39, 41, 45, 15, 21, 8, 18, 2, 61, 56, 14]

/-- Rotation offsets, indexed by lane index `x + 5 * y`. -/
def keccakRot : List Nat := keccakRotLow ++ keccakRotHigh

/-- Lane index of column `x`, row `y`. -/
def kIdx (x y : Nat) : Nat := x % 5 + 5 * (y % 5)

def keccakTheta (A : List Nat) : List Nat :=
  let C := fun x => A.getD (kIdx x 0) 0 ^^^ A.getD (kIdx x 1) 0 ^^^ A.getD (kIdx x 2) 0 ^^^
                    A.getD (kIdx x 3) 0 ^^^ A.getD (kIdx x 4) 0
  let D := fun x => C ((x + 4) % 5) ^^^ rotl64 (C ((x + 1) % 5)) 1
  (List.range 25).map (fun i => A.getD i 0 ^^^ D (i % 5))

/-- Combined rho and pi steps: output lane `(X, Y)` is the rotated source lane
`(x, y)` with `y = X` and `2 x + 3 y = Y (mod 5)`. -/
def keccakRhoPi (A : List Nat) : List Nat :=
  (List.range 25).map (fun j =>
    let X := j % 5
    let Y := j / 5
    let x := (3 * (Y + 15 - 3 * X)) % 5
    let y := X
    rotl64 (A.getD (kIdx x y) 0) (keccakRot.getD (kIdx x y) 0))

def keccakChi (B : List Nat) : List Nat :=
  (List.range 25).map (fun j =>
    let x := j % 5
    let y := j / 5
    B.getD j 0 ^^^ ((18446744073709551615 ^^^ B.getD (kIdx (x + 1) y) 0) &&& B.getD (kIdx (x + 2) y) 0))

def keccakRound (A : List Nat) (rc : Nat) : List Nat :=
  match keccakChi (keccakRhoPi (keccakTheta A)) with
  | a0 :: rest => (a0 ^^^ rc) :: rest
  | [] => []

def keccakF (A : List Nat) : List Nat := keccakRC.foldl keccakRound A

/-- Keccak multi-rate padding with the legacy 0x01 domain byte. -/
def keccakPad (msg : Bytes) : Bytes :=
  let q := 136 - msg.length % 136
  if q = 1 then msg ++ [129]
  else msg ++ 1 :: List.replicate (q - 2) 0 ++ [128]

/-- Group bytes into 64-bit little-endian lanes. -/
def leWords64 : Bytes → List Nat
  | a :: b :: c :: d :: e :: f :: g :: h :: rest =>
    (a + 256 * (b + 256 * (c + 256 * (d + 256 * (e + 256 * (f + 256 * (g + 256 * h))))))) ::
      leWords64 rest
  | _ => []

/-- Little-endian bytes of a 64-bit lane. -/
def leBytes64 (n : Nat) : Bytes :=
  [n % 256, n / 256 % 256, n / 2 ^ 16 % 256, n / 2 ^ 24 % 256,
   n / 2 ^ 32 % 256, n / 2 ^ 40 % 256, n / 2 ^ 48 % 256, n / 2 ^ 56 % 256]

def keccakAbsorbBlock (A : List Nat) (block : Bytes) : List Nat :=
  let lanes := leWords64 block
  keccakF ((List.range 25).map (fun i => A.getD i 0 ^^^ lanes.getD i 0))

def keccakAbsorb : Nat → List Nat → Bytes → List Nat
  | 0, A, _ => A
  | k + 1, A, msg => keccakAbsorb k (keccakAbsorbBlock A (msg.take 136)) (msg.drop 136)

/-- Keccak-256 digest (32 bytes) of a byte string. -/
def keccak256 (msg : Bytes) : Bytes :=
  let padded := keccakPad msg
  let A := keccakAbsorb (padded.length / 136) (List.replicate 25 0) padded
  ((A.take 4).map leBytes64).flatten

/- ### ABI model for the fixed signature dummy(bytes32)

The Go workers rely on go-ethereum's `accounts/abi` package, always on the one
method `dummy(bytes32)` (resp. `core_issuePaymentCert(bytes32)`, whose input
list is identical).  The relevant library behaviour for a single static
`bytes32` input, embedded below:
  * `Method.ID` is the first 4 bytes of the Keccak-256 digest of the canonical
    signature;
  * `Arguments.Pack` of one 32-byte array is the 32 bytes themselves;
  * `Arguments.Unpack` rejects empty input, rejects input shorter than one
    32-byte word, and otherwise yields the first 32 bytes as a `[32]byte`
    value, ignoring trailing bytes. -/

/-- Argument type descriptors declared by an ABI method. -/
inductive AbiType
  | bytes32Ty
deriving DecidableEq, Repr

/-- Runtime shapes of decoded argument values. `uint256` stands for the other
value shapes the library can produce for other ABIs; the fixed `bytes32`
signature never yields it, so the workers' dynamic type assertions on
`[32]byte` can only fail off this signature. -/
inductive AbiValue
  | bytes32 (v : Bytes)
  | uint256 (n : Nat)
deriving DecidableEq, Repr

/-- Failures of `abi.Arguments.Unpack` reachable for a single static input:
empty input, or input shorter than the 32-byte word at offset 0. -/
inductive UnpackErr
  | emptyInput
  | lengthInsufficient (got req : Nat)
deriving DecidableEq, Repr

/-- Bytes of the canonical signature string of the declared method. -/
def dummySig : Bytes := "dummy(bytes32)".data.map Char.toNat

/-- `method.ID`: the 4-byte selector of `dummy(bytes32)`, 0xfb838cc0. -/
def methodID : Bytes := [251, 131, 140, 192]

/-- `abi.Arguments.Pack` for one `bytes32` input: the canonical encoding of a
32-byte value is the value itself (one static word). -/
def inputsPack (v : Bytes) : Bytes := v

/-- `abi.Arguments.Unpack` for one `bytes32` input. -/
def inputsUnpack (data : Bytes) : Except UnpackErr (List AbiValue) :=
  if data.length = 0 then .error .emptyInput
  else if data.length < 32 then .error (.lengthInsufficient data.length 32)
  else .ok [AbiValue.bytes32 (data.take 32)]

/- ### Task data model -/

structure TaskRequest where
  taskId : Bytes
  payload : Bytes
  metadata : Bytes
deriving DecidableEq, Repr

structure TaskResponse where
  taskId : Bytes
  result : Bytes
deriving DecidableEq, Repr

/-- Error taxonomy of the workers; each constructor stands for one distinct Go
error value (the corresponding format string is noted alongside). -/
inductive WErr
  | shortSelector                    -- payload too short to contain method selector
  | shortPayload                     -- payload too short
  | selectorMismatch                 -- invalid method selector
  | lengthMismatch (got want : Nat)  -- unexpected argument length: got %d, want %d
  | decodeFailed (e : UnpackErr)     -- failed to unpack arguments
  | arityMismatch (got : Nat)        -- unexpected number of arguments
  | typeMismatch                     -- unexpected argument type
  | methodNotFound (m : String)      -- ABI method not found
  | invalidHex                       -- invalid hex string
  | remoteUnavailable                -- failed to send POST request
  | remoteResponse                   -- failed to read response body
deriving DecidableEq, Repr

/-- Lowercase hex digit as an ASCII byte. -/
def hexDigit (n : Nat) : Nat := if n < 10 then 48 + n else 87 + n

/-- `hex.EncodeToString`: lowercase hexadecimal ASCII encoding of bytes. -/
def hexBytes (bs : Bytes) : Bytes :=
  (bs.map (fun b => [hexDigit (b / 16), hexDigit (b % 16)])).flatten

/-- ASCII bytes of a string literal. -/
def strBytes (s : String) : Bytes := s.data.map Char.toNat

/-- `equalBytes` from part_002: length equality plus contentwise equality. -/
def equalBytes (a b : Bytes) : Bool := a.length == b.length && a == b

/- ### Cached-method worker (part_002, lines 395-543) -/

/-- `TaskWorker.ValidateTask` of part_002 (lines 431-463).  The Go locals
`encodedArgs := t.Payload[4:]` and `expectedArgEncoding := Inputs.Pack([32]byte)`
are inlined. -/
def validateTask (t : TaskRequest) : Except WErr Unit :=
  if t.payload.length < 4 then .error .shortSelector
  else if ¬ equalBytes (t.payload.take 4) methodID then .error .selectorMismatch
  else if (t.payload.drop 4).length ≠ (inputsPack (List.replicate 32 0)).length then
    .error (.lengthMismatch (t.payload.drop 4).length (inputsPack (List.replicate 32 0)).length)
  else
    match inputsUnpack (t.payload.drop 4) with
    | .error e => .error (.decodeFailed e)
    | .ok args =>
      if args.length ≠ 1 then .error (.arityMismatch args.length)
      else
        match args.headD (AbiValue.uint256 0) with
        | AbiValue.bytes32 _ => .ok ()
        | _ => .error .typeMismatch

/-- `TaskWorker.HandleTask` of part_002 (lines 465-507): validates only the
minimum length, unpacks, then answers the lowercase hex of the SHA-256 digest
of the whole raw payload, echoing the request's task id. -/
def handleTask (t : TaskRequest) : Except WErr TaskResponse :=
  if t.payload.length < 4 then .error .shortPayload
  else
    match inputsUnpack (t.payload.drop 4) with
    | .error e => .error (.decodeFailed e)
    | .ok args =>
      if args.length ≠ 1 then .error (.arityMismatch args.length)
      else
        match args.headD (AbiValue.uint256 0) with
        | AbiValue.bytes32 _ => .ok ⟨t.taskId, hexBytes (sha256 t.payload)⟩
        | _ => .error .typeMismatch

/- ### Worker of part_004 -/

/-- The ABI parsed inside part_004's `ValidateTask` declares `dummy`. -/
def v4ABIMethods : List (String × List AbiType) := [("dummy", [AbiType.bytes32Ty])]

/-- `TaskWorker.ValidateTask` of part_004 (lines 34-78).  The short-payload and
selector checks are a single disjunction returning one error value; the
selector comparison goes through lowercase hex strings and `strings.HasPrefix`. -/
def validateTaskV4 (t : TaskRequest) : Except WErr Unit :=
  match v4ABIMethods.lookup "dummy" with
  | none => .error (.methodNotFound "dummy")
  | some _ =>
    if t.payload.length < 4 then .error .selectorMismatch
    else if ¬ (hexBytes methodID).isPrefixOf (hexBytes (t.payload.take 4)) then
      .error .selectorMismatch
    else if (t.payload.drop 4).length ≠ (inputsPack (List.replicate 32 0)).length then
      .error (.lengthMismatch (t.payload.drop 4).length (inputsPack (List.replicate 32 0)).length)
    else
      match inputsUnpack (t.payload.drop 4) with
      | .error e => .error (.decodeFailed e)
      | .ok args =>
        if args.length ≠ 1 then .error (.arityMismatch args.length)
        else
          match args.headD (AbiValue.uint256 0) with
          | AbiValue.bytes32 _ => .ok ()
          | _ => .error .typeMismatch

/- ### Remote-forward worker (part_003) -/

/-- The ABI returned by part_003's `getParsedABI` declares exactly the method
`core_issuePaymentCert(bytes32)` and nothing else. -/
def remoteABIMethods : List (String × List AbiType) :=
  [("core_issuePaymentCert", [AbiType.bytes32Ty])]

/-- `TaskWorker.ValidateTask` of part_003 (lines 35-75): parses the ABI and
looks up the method named `dummy` before touching the payload. -/
def remoteValidateTask (t : TaskRequest) : Except WErr Unit :=
  match remoteABIMethods.lookup "dummy" with
  | none => .error (.methodNotFound "dummy")
  | some _ =>
    if t.payload.length < 4 then .error .shortPayload
    else
      match inputsUnpack (t.payload.drop 4) with
      | .error e => .error (.decodeFailed e)
      | .ok args =>
        if args.length ≠ 1 then .error (.arityMismatch args.length)
        else .ok ()

/-- Outcome of the synchronous HTTP POST performed by the remote-forward
worker: the endpoint may be unreachable (`http.Post` error), the response body
may fail to read (`io.ReadAll` error), or a raw body is obtained. -/
inductive RemoteOutcome
  | unreachable
  | readFailed
  | body (b : Bytes)

/-- The JSON-RPC request body built by part_003's `HandleTask`: `json.Marshal`
of a string-keyed map (keys serialized in sorted order), the single param
being the 0x-prefixed lowercase hex of the 32-byte argument. -/
def jsonRpcBody (txHash : Bytes) : Bytes :=
  strBytes "\x7b\"id\":1,\"jsonrpc\":\"2.0\",\"method\":\"core_issuePaymentCert\",\"params\":[\"0x" ++
    hexBytes txHash ++ strBytes "\"]\x7d"

/-- `TaskWorker.HandleTask` of part_003 (lines 77-157), parameterized by the
network environment `net` answering the POST of this call. -/
def remoteHandleTask (net : Bytes → RemoteOutcome) (t : TaskRequest) : Except WErr TaskResponse :=
  match remoteABIMethods.lookup "core_issuePaymentCert" with
  | none => .error (.methodNotFound "core_issuePaymentCert")
  | some _ =>
    if t.payload.length < 4 then .error .shortPayload
    else
      match inputsUnpack (t.payload.drop 4) with
      | .error e => .error (.decodeFailed e)
      | .ok args =>
        if args.length ≠ 1 then .error (.arityMismatch args.length)
        else
          match args.headD (AbiValue.uint256 0) with
          | AbiValue.bytes32 txHash =>
            match net (jsonRpcBody txHash) with
            | RemoteOutcome.unreachable => .error .remoteUnavailable
            | RemoteOutcome.readFailed => .error .remoteResponse
            | RemoteOutcome.body b => .ok ⟨t.taskId, b⟩
          | _ => .error .typeMismatch

/- ### Panic-sensitive re-statements of the workers

Go slice expressions panic when their bounds exceed the slice length.  The
`Chk` functions repeat the workers verbatim but perform every payload slice
through `sliceTo`/`sliceFrom`, which return `none` exactly when the
corresponding Go expression would panic.  Totality of the workers is then the
statement that the `Chk` functions never return `none`. -/

/-- Go `xs[:n]`: defined only when `n ≤ len xs`, panics otherwise. -/
def sliceTo (n : Nat) (xs : Bytes) : Option Bytes :=
  if n ≤ xs.length then some (xs.take n) else none

/-- Go `xs[n:]`: defined only when `n ≤ len xs`, panics otherwise. -/
def sliceFrom (n : Nat) (xs : Bytes) : Option Bytes :=
  if n ≤ xs.length then some (xs.drop n) else none

/-- Part_002 `ValidateTask` with checked slicing. -/
def validateTaskChk (t : TaskRequest) : Option (Except WErr Unit) :=
  if t.payload.length < 4 then some (.error .shortSelector)
  else
    match sliceTo 4 t.payload with
    | none => none
    | some sel =>
      if ¬ equalBytes sel methodID then some (.error .selectorMismatch)
      else
        match sliceFrom 4 t.payload with
        | none => none
        | some encodedArgs =>
          if encodedArgs.length ≠ (inputsPack (List.replicate 32 0)).length then
            some (.error (.lengthMismatch encodedArgs.length (inputsPack (List.replicate 32 0)).length))
          else
            match inputsUnpack encodedArgs with
            | .error e => some (.error (.decodeFailed e))
            | .ok args =>
              if args.length ≠ 1 then some (.error (.arityMismatch args.length))
              else
                match args.headD (AbiValue.uint256 0) with
                | AbiValue.bytes32 _ => some (.ok ())
                | _ => some (.error .typeMismatch)

/-- Part_002 `HandleTask` with checked slicing. -/
def handleTaskChk (t : TaskRequest) : Option (Except WErr TaskResponse) :=
  if t.payload.length < 4 then some (.error .shortPayload)
  else
    match sliceFrom 4 t.payload with
    | none => none
    | some encodedArgs =>
      match inputsUnpack encodedArgs with
      | .error e => some (.error (.decodeFailed e))
      | .ok args =>
        if args.length ≠ 1 then some (.error (.arityMismatch args.length))
        else
          match args.headD (AbiValue.uint256 0) with
          | AbiValue.bytes32 _ => some (.ok ⟨t.taskId, hexBytes (sha256 t.payload)⟩)
          | _ => some (.error .typeMismatch)

/-- Part_004 `ValidateTask` with checked slicing; the disjunctive guard is
short-circuiting, so the `t.Payload[:4]` slice is reached only after the
length test has failed to fire. -/
def validateTaskV4Chk (t : TaskRequest) : Option (Except WErr Unit) :=
  match v4ABIMethods.lookup "dummy" with
  | none => some (.error (.methodNotFound "dummy"))
  | some _ =>
    if t.payload.length < 4 then some (.error .selectorMismatch)
    else
      match sliceTo 4 t.payload with
      | none => none
      | some sel =>
        if ¬ (hexBytes methodID).isPrefixOf (hexBytes sel) then
          some (.error .selectorMismatch)
        else
          match sliceFrom 4 t.payload with
          | none => none
          | some encodedArgs =>
            if encodedArgs.length ≠ (inputsPack (List.replicate 32 0)).length then
              some (.error (.lengthMismatch encodedArgs.length (inputsPack (List.replicate 32 0)).length))
            else
              match inputsUnpack encodedArgs with
              | .error e => some (.error (.decodeFailed e))
              | .ok args =>
                if args.length ≠ 1 then some (.error (.arityMismatch args.length))
                else
                  match args.headD (AbiValue.uint256 0) with
                  | AbiValue.bytes32 _ => some (.ok ())
                  | _ => some (.error .typeMismatch)

/- ### Worker of src/cmd/main.go

This variant treats the inbound payload as hexadecimal ASCII text: it decodes
the text first, and on success hashes only the decoded 32-byte argument, not
the payload. -/

/-- Value of one ASCII hex digit, accepting 0-9, a-f and A-F as
`hex.DecodeString` does. -/
def hexCharVal (c : Nat) : Option Nat :=
  if 48 ≤ c ∧ c ≤ 57 then some (c - 48)
  else if 97 ≤ c ∧ c ≤ 102 then some (c - 87)
  else if 65 ≤ c ∧ c ≤ 70 then some (c - 55)
  else none

/-- `hex.DecodeString`: fails on an odd-length string or any non-hex byte. -/
def hexDecode : Bytes → Option Bytes
  | [] => some []
  | [_] => none
  | a :: b :: rest =>
    match hexCharVal a, hexCharVal b, hexDecode rest with
    | some x, some y, some r => some ((16 * x + y) :: r)
    | _, _, _ => none

/-- `TaskWorker.HandleTask` of src/cmd/main.go (lines 48-104), with checked
slicing: the `payload[4:]` at line 78 is not guarded by a length check, so a
decoded payload shorter than 4 bytes would panic (`none`).  On success the
result is the lowercase hex of SHA-256 of the decoded 32-byte argument only. -/
def handleTaskCmd (t : TaskRequest) : Option (Except WErr TaskResponse) :=
  match hexDecode t.payload with
  | none => some (.error .invalidHex)
  | some payload =>
    match v4ABIMethods.lookup "dummy" with
    | none => some (.error (.methodNotFound "dummy"))
    | some _ =>
      match sliceFrom 4 payload with
      | none => none
      | some rest =>
        match inputsUnpack rest with
        | .error e => some (.error (.decodeFailed e))
        | .ok args =>
          if args.length ≠ 1 then some (.error (.arityMismatch args.length))
          else
            match args.headD (AbiValue.uint256 0) with
            | AbiValue.bytes32 txHash => some (.ok ⟨t.taskId, hexBytes (sha256 txHash)⟩)
            | _ => some (.error .typeMismatch)

/- ### Supporting lemmas -/

set_option maxRecDepth 200000 in
/-- The stored selector is the first 4 bytes of the Keccak-256 digest of the
canonical signature, as go-ethereum computes `Method.ID`. -/
theorem methodID_keccak : methodID = (keccak256 dummySig).take 4 := by decide

theorem inputsUnpack_of_le (d : Bytes) (h : 32 ≤ d.length) :
    inputsUnpack d = .ok [AbiValue.bytes32 (d.take 32)] := by
  unfold inputsUnpack
  rw [if_neg (by omega), if_neg (by omega)]

theorem take4_append (w : Bytes) : (methodID ++ w).take 4 = methodID := rfl

theorem drop4_append (w : Bytes) : (methodID ++ w).drop 4 = w := rfl

theorem validateTask_valid (t : TaskRequest) (hsel : t.payload.take 4 = methodID)
    (hlen : (t.payload.drop 4).length = 32) : validateTask t = .ok () := by
  have hd : t.payload.length - 4 = 32 := by simpa using hlen
  unfold validateTask
  rw [if_neg (by omega), if_neg (by simp [equalBytes, hsel]),
      if_neg (by simp [inputsPack, hlen]), inputsUnpack_of_le _ hlen.ge]
  rfl

theorem handleTask_valid (t : TaskRequest) (h : 36 ≤ t.payload.length) :
    handleTask t = .ok ⟨t.taskId, hexBytes (sha256 t.payload)⟩ := by
  unfold handleTask
  rw [if_neg (by omega), inputsUnpack_of_le _ (by simp only [List.length_drop]; omega)]
  rfl

theorem validateTask_ok_len (t : TaskRequest) (h : validateTask t = .ok ()) :
    36 ≤ t.payload.length := by
  unfold validateTask at h
  split at h
  · exact (Except.noConfusion h)
  next h4 =>
    split at h
    · exact (Except.noConfusion h)
    split at h
    · exact (Except.noConfusion h)
    next hlen =>
      have h32 : (t.payload.drop 4).length = 32 := by
        simpa [inputsPack] using not_ne_iff.mp hlen
      simp only [List.length_drop] at h32
      omega

theorem handleTask_taskId (t : TaskRequest) (r : TaskResponse)
    (h : handleTask t = .ok r) : r.taskId = t.taskId := by
  unfold handleTask at h
  split at h
  · exact (Except.noConfusion h)
  split at h
  · exact (Except.noConfusion h)
  split at h
  · exact (Except.noConfusion h)
  split at h
  · injection h with h'
    rw [← h']
  · exact (Except.noConfusion h)

/-- Closed reduction of the remote worker's method lookup (the ABI declares
only `core_issuePaymentCert`, which is the method `HandleTask` asks for). -/
theorem remoteHandleTask_eq (net : Bytes → RemoteOutcome) (t : TaskRequest) :
    remoteHandleTask net t =
      (if t.payload.length < 4 then .error .shortPayload
       else
        match inputsUnpack (t.payload.drop 4) with
        | .error e => .error (.decodeFailed e)
        | .ok args =>
          if args.length ≠ 1 then .error (.arityMismatch args.length)
          else
            match args.headD (AbiValue.uint256 0) with
            | AbiValue.bytes32 txHash =>
              match net (jsonRpcBody txHash) with
              | RemoteOutcome.unreachable => .error .remoteUnavailable
              | RemoteOutcome.readFailed => .error .remoteResponse
              | RemoteOutcome.body b => .ok ⟨t.taskId, b⟩
            | _ => .error .typeMismatch) := rfl

theorem remoteHandleTask_net (net : Bytes → RemoteOutcome) (t : TaskRequest)
    (h : 36 ≤ t.payload.length) :
    remoteHandleTask net t =
      match net (jsonRpcBody ((t.payload.drop 4).take 32)) with
      | RemoteOutcome.unreachable => .error .remoteUnavailable
      | RemoteOutcome.readFailed => .error .remoteResponse
      | RemoteOutcome.body b => .ok ⟨t.taskId, b⟩ := by
  rw [remoteHandleTask_eq, if_neg (by omega),
      inputsUnpack_of_le _ (by simp only [List.length_drop]; omega)]
  rfl

theorem remoteHandleTask_taskId (net : Bytes → RemoteOutcome) (t : TaskRequest)
    (r : TaskResponse) (h : remoteHandleTask net t = .ok r) : r.taskId = t.taskId := by
  rw [remoteHandleTask_eq] at h
  split at h
  · exact (Except.noConfusion h)
  split at h
  · exact (Except.noConfusion h)
  split at h
  · exact (Except.noConfusion h)
  split at h
  · split at h
    · exact (Except.noConfusion h)
    · exact (Except.noConfusion h)
    · injection h with h'
      rw [← h']
  · exact (Except.noConfusion h)

theorem hexDigit_injective {a b : Nat} (h : hexDigit a = hexDigit b) : a = b := by
  unfold hexDigit at h
  split at h <;> split at h <;> omega

theorem hexBytes_cons (x : Nat) (xs : Bytes) :
    hexBytes (x :: xs) = hexDigit (x / 16) :: hexDigit (x % 16) :: hexBytes xs := by
  simp [hexBytes]

theorem hexBytes_injective : ∀ {a b : Bytes}, hexBytes a = hexBytes b → a = b := by
  intro a
  induction a with
  | nil =>
    intro b h
    cases b with
    | nil => rfl
    | cons y ys => rw [hexBytes_cons] at h; exact (List.noConfusion h)
  | cons x xs ih =>
    intro b h
    cases b with
    | nil => rw [hexBytes_cons] at h; exact (List.noConfusion h)
    | cons y ys =>
      rw [hexBytes_cons, hexBytes_cons] at h
      obtain ⟨h1, h2, h3⟩ :
          hexDigit (x / 16) = hexDigit (y / 16) ∧
          hexDigit (x % 16) = hexDigit (y % 16) ∧ hexBytes xs = hexBytes ys := by
        simpa using h
      have e1 := hexDigit_injective h1
      have e2 := hexDigit_injective h2
      have exy : x = y := by omega
      rw [exy, ih h3]

theorem hexBytes_len (l : Bytes) : (hexBytes l).length = 2 * l.length := by
  induction l with
  | nil => rfl
  | cons x xs ih =>
    rw [hexBytes_cons]
    simp only [List.length_cons, ih]
    omega

/-- Part_004's hex-string `HasPrefix` selector test is exactly byte equality of
the first four payload bytes with the selector. -/
theorem v4SelectorCheck (p : Bytes) (h4 : 4 ≤ p.length) :
    ((hexBytes methodID).isPrefixOf (hexBytes (p.take 4)) = true) ↔ p.take 4 = methodID := by
  constructor
  · intro h
    have hpre : hexBytes methodID <+: hexBytes (p.take 4) := List.isPrefixOf_iff_prefix.mp h
    have hlen : (hexBytes methodID).length = (hexBytes (p.take 4)).length := by
      have hm : methodID.length = 4 := rfl
      rw [hexBytes_len, hexBytes_len]
      simp only [List.length_take, hm]
      omega
    exact (hexBytes_injective (List.IsPrefix.eq_of_length hpre hlen)).symm
  · intro h
    rw [h]
    exact List.isPrefixOf_iff_prefix.mpr (List.prefix_refl _)

/-- Closed reduction of part_004's method lookup (its ABI declares `dummy`). -/
theorem validateTaskV4_eq (t : TaskRequest) :
    validateTaskV4 t =
      (if t.payload.length < 4 then .error .selectorMismatch
       else if ¬ (hexBytes methodID).isPrefixOf (hexBytes (t.payload.take 4)) then
         .error .selectorMismatch
       else if (t.payload.drop 4).length ≠ (inputsPack (List.replicate 32 0)).length then
         .error (.lengthMismatch (t.payload.drop 4).length (inputsPack (List.replicate 32 0)).length)
       else
        match inputsUnpack (t.payload.drop 4) with
        | .error e => .error (.decodeFailed e)
        | .ok args =>
          if args.length ≠ 1 then .error (.arityMismatch args.length)
          else
            match args.headD (AbiValue.uint256 0) with
            | AbiValue.bytes32 _ => .ok ()
            | _ => .error .typeMismatch) := rfl

theorem validateTaskV4_selectorMismatch (t : TaskRequest) (h4 : 4 ≤ t.payload.length)
    (hsel : t.payload.take 4 ≠ methodID) :
    validateTaskV4 t = .error .selectorMismatch := by
  rw [validateTaskV4_eq, if_neg (by omega), if_pos]
  intro hc
  exact hsel ((v4SelectorCheck _ h4).mp hc)

/-- Closed reduction of part_004's checked variant through its method lookup. -/
theorem validateTaskV4Chk_eq (t : TaskRequest) :
    validateTaskV4Chk t =
      (if t.payload.length < 4 then some (.error .selectorMismatch)
       else
        match sliceTo 4 t.payload with
        | none => none
        | some sel =>
          if ¬ (hexBytes methodID).isPrefixOf (hexBytes sel) then
            some (.error .selectorMismatch)
          else
            match sliceFrom 4 t.payload with
            | none => none
            | some encodedArgs =>
              if encodedArgs.length ≠ (inputsPack (List.replicate 32 0)).length then
                some (.error (.lengthMismatch encodedArgs.length (inputsPack (List.replicate 32 0)).length))
              else
                match inputsUnpack encodedArgs with
                | .error e => some (.error (.decodeFailed e))
                | .ok args =>
                  if args.length ≠ 1 then some (.error (.arityMismatch args.length))
                  else
                    match args.headD (AbiValue.uint256 0) with
                    | AbiValue.bytes32 _ => some (.ok ())
                    | _ => some (.error .typeMismatch)) := rfl

/- ### Claim theorems -/

/-- C1 counterexample: the also-cited `HandleTask` of src/cmd/main.go does not
return SHA-256 of the entire raw payload — on the spec scenario payload
selector ++ 32-byte value (raw bytes) it fails outright, because it first
hex-decodes the payload text and the selector byte 0xfb is not hex ASCII. -/
theorem c1_counterexample :
    handleTaskCmd ⟨[116, 105, 100],
        methodID ++ [18, 52, 86, 120, 144, 171, 205, 239, 18, 52, 86, 120, 144, 171, 205, 239,
                     18, 52, 86, 120, 144, 171, 205, 239, 18, 52, 86, 120, 144, 171, 205, 239],
        []⟩ = some (.error .invalidHex) ∧
    handleTaskCmd ⟨[116, 105, 100],
        methodID ++ [18, 52, 86, 120, 144, 171, 205, 239, 18, 52, 86, 120, 144, 171, 205, 239,
                     18, 52, 86, 120, 144, 171, 205, 239, 18, 52, 86, 120, 144, 171, 205, 239],
        []⟩ ≠
      some (.ok ⟨[116, 105, 100],
        hexBytes (sha256 (methodID ++
          [18, 52, 86, 120, 144, 171, 205, 239, 18, 52, 86, 120, 144, 171, 205, 239,
           18, 52, 86, 120, 144, 171, 205, 239, 18, 52, 86, 120, 144, 171, 205, 239]))⟩) :=
  ⟨rfl, fun h => Except.noConfusion (Option.some.inj h)⟩

/-- C1 amended: for the descriptor dummy(bytes32), whose selector is the first
4 bytes of the Keccak-256 digest of the canonical signature, every payload of
the form selector ++ 32-byte value makes `HandleTask` of the part_002
local-compute worker succeed with result the lowercase hexadecimal ASCII
encoding of the SHA-256 digest of the entire raw payload, selector included;
the src/cmd/main.go variant instead expects hex-encoded payload text and
hashes only the decoded 32-byte argument, so the property does not hold of it. -/
theorem c1_local_digest (tid md v : Bytes) (hv : v.length = 32) :
    handleTask ⟨tid, methodID ++ v, md⟩ =
      .ok ⟨tid, hexBytes (sha256 (methodID ++ v))⟩ ∧
    methodID = (keccak256 dummySig).take 4 :=
  ⟨handleTask_valid _ (by rw [List.length_append, hv]; decide), methodID_keccak⟩

/-- C1 witness: the spec scenario, payload = selector ++ 0x1234567890abcdef
(four times). -/
theorem c1_witness :
    handleTask ⟨[116, 105, 100],
        methodID ++ [18, 52, 86, 120, 144, 171, 205, 239, 18, 52, 86, 120, 144, 171, 205, 239,
                     18, 52, 86, 120, 144, 171, 205, 239, 18, 52, 86, 120, 144, 171, 205, 239],
        []⟩ =
      .ok ⟨[116, 105, 100],
        hexBytes (sha256 (methodID ++
          [18, 52, 86, 120, 144, 171, 205, 239, 18, 52, 86, 120, 144, 171, 205, 239,
           18, 52, 86, 120, 144, 171, 205, 239, 18, 52, 86, 120, 144, 171, 205, 239]))⟩ ∧
    methodID = (keccak256 dummySig).take 4 :=
  c1_local_digest [116, 105, 100] []
    [18, 52, 86, 120, 144, 171, 205, 239, 18, 52, 86, 120, 144, 171, 205, 239,
     18, 52, 86, 120, 144, 171, 205, 239, 18, 52, 86, 120, 144, 171, 205, 239] (by decide)

/-- C2 counterexample: a 36-byte payload whose first four bytes are not the
selector is rejected by `ValidateTask` but accepted by `HandleTask`, because
`HandleTask` never compares the selector bytes; hence `HandleTask` does not
re-run the same validation. -/
theorem c2_counterexample :
    validateTask ⟨[], [0, 0, 0, 0] ++ List.replicate 32 7, []⟩ = .error .selectorMismatch ∧
    handleTask ⟨[], [0, 0, 0, 0] ++ List.replicate 32 7, []⟩ =
      .ok ⟨[], hexBytes (sha256 ([0, 0, 0, 0] ++ List.replicate 32 7))⟩ :=
  ⟨by rfl, handleTask_valid _ (by decide)⟩

/-- C2 amended: validation is deterministic and side-effect-free, and every
request `ValidateTask` accepts is also handled successfully by `HandleTask`;
but the converse fails, as `HandleTask` omits the selector and exact-length
checks. -/
theorem c2_validate_implies_handle (t : TaskRequest) (h : validateTask t = .ok ()) :
    handleTask t = .ok ⟨t.taskId, hexBytes (sha256 t.payload)⟩ :=
  handleTask_valid t (validateTask_ok_len t h)

/-- C2 witness: a well-formed request accepted by both. -/
theorem c2_witness :
    handleTask ⟨[1], methodID ++ List.replicate 32 0, []⟩ =
      .ok ⟨[1], hexBytes (sha256 (methodID ++ List.replicate 32 0))⟩ :=
  c2_validate_implies_handle ⟨[1], methodID ++ List.replicate 32 0, []⟩ (by rfl)

/-- C3 counterexample: in the part_004 variant, also cited by the claim, a
3-byte payload yields the selector-mismatch error rather than the dedicated
short-payload error. -/
theorem c3_counterexample :
    validateTaskV4 ⟨[], [1, 2, 3], []⟩ = .error .selectorMismatch ∧
    WErr.selectorMismatch ≠ WErr.shortSelector := by
  exact ⟨by rfl, by decide⟩

/-- C3 amended: in the part_002 worker every payload shorter than 4 bytes
yields the dedicated short-payload error (and no other error of the taxonomy);
the part_004 variant folds this case into its selector check instead. -/
theorem c3_short_payload (t : TaskRequest) (h : t.payload.length < 4) :
    validateTask t = .error .shortSelector := by
  unfold validateTask
  rw [if_pos h]

/-- C3 witness: the 3-byte payload of the spec scenario. -/
theorem c3_witness : validateTask ⟨[], [1, 2, 3], []⟩ = .error .shortSelector :=
  c3_short_payload ⟨[], [1, 2, 3], []⟩ (by decide)

/-- C4: every payload of length at least 4 whose first 4 bytes differ from the
declared selector is rejected with the selector-mismatch error, in both cited
`ValidateTask` variants. -/
theorem c4_selector_mismatch (t : TaskRequest) (h4 : 4 ≤ t.payload.length)
    (hsel : t.payload.take 4 ≠ methodID) :
    validateTask t = .error .selectorMismatch ∧
    validateTaskV4 t = .error .selectorMismatch := by
  constructor
  · unfold validateTask
    rw [if_neg (by omega), if_pos (by simp [equalBytes, hsel])]
  · exact validateTaskV4_selectorMismatch t h4 hsel

/-- C4 witness: a 4-byte all-zero payload. -/
theorem c4_witness :
    validateTask ⟨[], [0, 0, 0, 0], []⟩ = .error .selectorMismatch ∧
    validateTaskV4 ⟨[], [0, 0, 0, 0], []⟩ = .error .selectorMismatch :=
  c4_selector_mismatch ⟨[], [0, 0, 0, 0], []⟩ (by decide) (by decide)

/-- C5: with a correct selector, an argument region whose length differs from
the encoded size of the reference tuple `Inputs.Pack([32]byte{})` is rejected
with the length-mismatch error carrying the observed and expected lengths. -/
theorem c5_length_mismatch (t : TaskRequest)
    (hsel : t.payload.take 4 = methodID)
    (hlen : (t.payload.drop 4).length ≠ (inputsPack (List.replicate 32 0)).length) :
    validateTask t = .error
      (.lengthMismatch (t.payload.drop 4).length (inputsPack (List.replicate 32 0)).length) := by
  have h4 : 4 ≤ t.payload.length := by
    have ht : (t.payload.take 4).length = 4 := by rw [hsel]; decide
    simp only [List.length_take] at ht
    omega
  unfold validateTask
  rw [if_neg (by omega), if_neg (by rw [hsel]; decide), if_pos hlen]

/-- C5 witness: a payload encoding two bytes32 words where one is declared is
rejected as 64 observed vs 32 expected. -/
theorem c5_witness :
    validateTask ⟨[], methodID ++ List.replicate 64 0, []⟩ =
      .error (.lengthMismatch 64 32) :=
  c5_length_mismatch ⟨[], methodID ++ List.replicate 64 0, []⟩ (by decide) (by decide)

/-- C6: round-trip law. For every 32-byte value, the canonical encoding
prefixed with the correct selector passes `ValidateTask`, and the arguments
`HandleTask` decodes from that payload are exactly the encoded value. -/
theorem c6_round_trip (tid md v : Bytes) (hv : v.length = 32) :
    validateTask ⟨tid, methodID ++ inputsPack v, md⟩ = .ok () ∧
    inputsUnpack ((methodID ++ inputsPack v).drop 4) = .ok [AbiValue.bytes32 v] := by
  constructor
  · exact validateTask_valid ⟨tid, methodID ++ inputsPack v, md⟩ (take4_append _) hv
  · have h2 : v.take 32 = v := by rw [← hv, List.take_length]
    have h1 : inputsUnpack v = .ok [AbiValue.bytes32 v] := by
      rw [inputsUnpack_of_le v hv.ge, h2]
    rw [drop4_append]
    exact h1

/-- C6 witness: the all-sevens 32-byte value round-trips. -/
theorem c6_witness :
    validateTask ⟨[2], methodID ++ inputsPack (List.replicate 32 7), []⟩ = .ok () ∧
    inputsUnpack ((methodID ++ inputsPack (List.replicate 32 7)).drop 4) =
      .ok [AbiValue.bytes32 (List.replicate 32 7)] :=
  c6_round_trip [2] [] (List.replicate 32 7) (by decide)

/-- C7: the remote-forward worker passes the remote response body through
unchanged; whenever decoding passes and the POST yields a body, the result is
exactly that body, while an unreachable endpoint or an unreadable body yield
the corresponding errors. -/
theorem c7_remote_passthrough (t : TaskRequest) (b : Bytes) (h : 36 ≤ t.payload.length) :
    remoteHandleTask (fun _ => RemoteOutcome.body b) t = .ok ⟨t.taskId, b⟩ ∧
    remoteHandleTask (fun _ => RemoteOutcome.unreachable) t = .error .remoteUnavailable ∧
    remoteHandleTask (fun _ => RemoteOutcome.readFailed) t = .error .remoteResponse := by
  refine ⟨?_, ?_, ?_⟩ <;> rw [remoteHandleTask_net _ _ h]

/-- C7 witness: a 36-byte payload with body [9, 9] forwarded untouched. -/
theorem c7_witness :
    remoteHandleTask (fun _ => RemoteOutcome.body [9, 9]) ⟨[3], List.replicate 36 5, []⟩ =
      .ok ⟨[3], [9, 9]⟩ :=
  (c7_remote_passthrough ⟨[3], List.replicate 36 5, []⟩ [9, 9] (by decide)).1

/-- C8: whenever `HandleTask` succeeds, the response's task id equals the
request's task id byte-for-byte, in both the local-compute and remote-forward
variants. -/
theorem c8_taskId_preserved (t : TaskRequest) (r : TaskResponse)
    (net : Bytes → RemoteOutcome) :
    (handleTask t = .ok r → r.taskId = t.taskId) ∧
    (remoteHandleTask net t = .ok r → r.taskId = t.taskId) :=
  ⟨handleTask_taskId t r, remoteHandleTask_taskId net t r⟩

/-- C8 witness: both variants echo the task id [7]. -/
theorem c8_witness :
    (TaskResponse.mk [7] (hexBytes (sha256 (List.replicate 36 0)))).taskId =
      (TaskRequest.mk [7] (List.replicate 36 0) []).taskId ∧
    (TaskResponse.mk [7] [9]).taskId = (TaskRequest.mk [7] (List.replicate 36 0) []).taskId := by
  constructor
  · exact (c8_taskId_preserved ⟨[7], List.replicate 36 0, []⟩
      ⟨[7], hexBytes (sha256 (List.replicate 36 0))⟩ (fun _ => RemoteOutcome.body [9])).1
      (handleTask_valid _ (by decide))
  · exact (c8_taskId_preserved ⟨[7], List.replicate 36 0, []⟩ ⟨[7], [9]⟩
      (fun _ => RemoteOutcome.body [9])).2 (by rfl)

/-- C9: `ValidateTask` and `HandleTask` are total and never panic: on every
request, including empty, short, or malformed payloads, the panic-sensitive
re-statements (where each Go slice expression is checked) return `some` of the
worker's answer — every byte-slice access is guarded by a prior length check. -/
theorem c9_total_no_panic (t : TaskRequest) :
    validateTaskChk t = some (validateTask t) ∧
    handleTaskChk t = some (handleTask t) ∧
    validateTaskV4Chk t = some (validateTaskV4 t) := by
  have hs1 : ¬ t.payload.length < 4 → sliceTo 4 t.payload = some (t.payload.take 4) := by
    intro h
    unfold sliceTo
    rw [if_pos (by omega)]
  have hs2 : ¬ t.payload.length < 4 → sliceFrom 4 t.payload = some (t.payload.drop 4) := by
    intro h
    unfold sliceFrom
    rw [if_pos (by omega)]
  refine ⟨?_, ?_, ?_⟩
  · unfold validateTaskChk validateTask
    by_cases hlt : t.payload.length < 4
    · simp only [if_pos hlt]
    · simp only [if_neg hlt, hs1 hlt, hs2 hlt]
      cases hu : inputsUnpack (t.payload.drop 4) with
      | error e => split_ifs <;> rfl
      | ok args =>
        dsimp only
        split_ifs <;>
          first
            | rfl
            | (cases hh : args.headD (AbiValue.uint256 0) <;> rfl)
  · unfold handleTaskChk handleTask
    by_cases hlt : t.payload.length < 4
    · simp only [if_pos hlt]
    · simp only [if_neg hlt, hs2 hlt]
      cases hu : inputsUnpack (t.payload.drop 4) with
      | error e => rfl
      | ok args =>
        dsimp only
        split_ifs <;>
          first
            | rfl
            | (cases hh : args.headD (AbiValue.uint256 0) <;> rfl)
  · rw [validateTaskV4Chk_eq, validateTaskV4_eq]
    by_cases hlt : t.payload.length < 4
    · simp only [if_pos hlt]
    · simp only [if_neg hlt, hs1 hlt, hs2 hlt]
      cases hu : inputsUnpack (t.payload.drop 4) with
      | error e => split_ifs <;> rfl
      | ok args =>
        dsimp only
        split_ifs <;>
          first
            | rfl
            | (cases hh : args.headD (AbiValue.uint256 0) <;> rfl)

/-- C10: the remote-forward variant's `ValidateTask` rejects every request
unconditionally with the method-not-found error, because it looks up the ABI
method named dummy in an ABI declaring only core_issuePaymentCert, before
examining the payload. -/
theorem c10_remote_validate_rejects_all (t : TaskRequest) :
    remoteValidateTask t = .error (.methodNotFound "dummy") := rfl

end CoreAVS
